import Mathlib

/-!
Verification of the LinkedIn candidate-sourcing subsystem of the Sourcer
repository: a shallow embedding of the graph denormalizer, the Voyager HTTP
client's authentication outcome logic, the search pagination and query-id
rotation, the rate limiter, and the orchestrator's cookie/fallback policy,
with theorems settling the stated properties.
-/

namespace Sourcer

/-! ## JSON model

JSON values as returned by `res.json()` in `linkedin_api/linkedin.py`.
Numbers are modelled as integers; no property below depends on fractional
number values. -/

inductive J where
  | null
  | bool (b : Bool)
  | num (n : Int)
  | str (s : String)
  | arr (elems : List J)
  | obj (fields : List (String × J))

/-- Python dict lookup for an object built by iterating key/value pairs in
order: a later assignment to the same key overwrites an earlier one, so the
last matching pair wins. -/
def dictGet (pairs : List (String × J)) (k : String) : Option J :=
  pairs.foldl (fun acc p => if p.1 = k then some p.2 else acc) none

/-- `j.get(k)` on a JSON object (`None` when the key is absent; callers in the
source only call `.get` on dict values). -/
def objGet (j : J) (k : String) : Option J :=
  match j with
  | .obj fields => dictGet fields k
  | _ => none

/-- Python truthiness of a JSON value (`if not e: ...` tests in the source). -/
def jTruthy : J → Bool
  | .null => false
  | .bool b => b
  | .num n => n != 0
  | .str s => !s.isEmpty
  | .arr elems => !elems.isEmpty
  | .obj fields => !fields.isEmpty

/-- `k in obj` for a dict modelled as a pair list. -/
def hasKey (fields : List (String × J)) (k : String) : Bool :=
  fields.any (fun p => p.1 == k)

/-! Character-level string helpers.  Python's `str` operations are over
character sequences; we implement the few we need directly over `String.data`
(rather than through Lean's byte-position-based `String` API, whose loops are
compiled by well-founded recursion and therefore do not evaluate inside
kernel-checked proofs). -/

/-- `cs` begins with `pat` (character-wise). -/
def charsStart : List Char → List Char → Bool
  | _, [] => true
  | [], _ :: _ => false
  | c :: cs, p :: ps => c == p && charsStart cs ps

/-- Python `s.startswith(pat)`. -/
def strStarts (s pat : String) : Bool :=
  charsStart s.data pat.data

/-- Python `s[1:]`. -/
def strDropOne (s : String) : String :=
  ⟨s.data.drop 1⟩

/-- Python `s[:n]`. -/
def strTake (s : String) (n : Nat) : String :=
  ⟨s.data.take n⟩

/-- `pat in s`: `pat` occurs as a contiguous substring of `s`. -/
def charsContain (pat : List Char) : List Char → Bool
  | [] => charsStart [] pat
  | c :: rest => charsStart (c :: rest) pat || charsContain pat rest

/-- Python `pat in s` for strings. -/
def strContains (s pat : String) : Bool :=
  charsContain pat.data s.data

/-! ## GraphResolver: `Linkedin._denormalize` / `Linkedin._resolve`

`_resolve(obj, lookup, is_ref)` recurses with no depth bound and no visited
set.  We embed it with an explicit `fuel` bounding the recursion depth:
`none` means the Python call stack has not returned within that depth, so
`(∀ fuel, ... = none)` is exactly unbounded recursion (Python raises
`RecursionError`). -/

def resolveFuel (lookup : List (String × J)) : Nat → Bool → J → Option J
  | 0, _, _ => none
  | fuel + 1, isRef, .str s =>
      -- `if is_ref and obj in lookup: return self._resolve(lookup[obj], lookup, False)`
      if isRef then
        match dictGet lookup s with
        | some e => resolveFuel lookup fuel false e
        | none => some (.str s)
      else some (.str s)
  | fuel + 1, _, .obj fields =>
      -- dict case: resolve each value, marking values of keys that start
      -- with "*" as references; mirror the resolved value under the bare
      -- key when the original dict does not already have it
      (fields.foldr
        (fun kv acc => do
          let tail ← acc
          let kr := strStarts kv.1 "*"
          let rv ← resolveFuel lookup fuel kr kv.2
          let bare := strDropOne kv.1
          if kr && !hasKey fields bare then
            pure ((kv.1, rv) :: (bare, rv) :: tail)
          else
            pure ((kv.1, rv) :: tail))
        (some [])).map J.obj
  | fuel + 1, isRef, .arr elems =>
      (elems.mapM (fun e => resolveFuel lookup fuel isRef e)).map J.arr
  | _ + 1, _, j => some j

/-- `lookup = {item["entityUrn"]: item for item in included if "entityUrn" in item}`.
Only dict items are iterable this way, and an entry whose `entityUrn` is not a
string can never be hit by a string reference, so such entries are omitted. -/
def buildLookup (included : List J) : List (String × J) :=
  included.filterMap (fun item =>
    match item with
    | .obj fields =>
        match dictGet fields "entityUrn" with
        | some (.str u) => some (u, item)
        | _ => none
    | _ => none)

/-- `Linkedin._denormalize`: `data = raw.get("data", raw)`, build the lookup
from `raw.get("included", [])`, and resolve the root with `is_ref = False`.
An empty `included` returns `data` unchanged without resolving. -/
def denormalizeFuel (fuel : Nat) (raw : J) : Option J :=
  let data := (objGet raw "data").getD raw
  let included := match objGet raw "included" with
    | some (.arr xs) => xs
    | _ => []
  if included.isEmpty then some data
  else resolveFuel (buildLookup included) fuel false data

/-- An included entity whose reference field points at its own key: the
minimal self-referential graph. -/
def cycEntity : J :=
  .obj [("entityUrn", .str "urn:li:test:A"), ("*self", .str "urn:li:test:A")]

def cycLookup : List (String × J) := buildLookup [cycEntity]

/-- Resolution of `j` never returns within any recursion depth: the Python
call `_resolve(j, lookup, is_ref)` recurses without bound. -/
def resolveDiverges (lookup : List (String × J)) (isRef : Bool) (j : J) : Prop :=
  ∀ fuel, resolveFuel lookup fuel isRef j = none

/-- At every depth, resolving the self-referential key (as a reference) and
resolving the entity it denotes both fail to return. -/
theorem cyc_resolve_none (fuel : Nat) :
    resolveFuel cycLookup fuel true (.str "urn:li:test:A") = none ∧
    resolveFuel cycLookup fuel false cycEntity = none := by
  induction fuel with
  | zero => exact ⟨rfl, rfl⟩
  | succ n ih =>
    constructor
    · show resolveFuel cycLookup (n + 1) true (.str "urn:li:test:A") = none
      have step : resolveFuel cycLookup (n + 1) true (.str "urn:li:test:A")
          = resolveFuel cycLookup n false cycEntity := rfl
      rw [step]
      exact ih.2
    · show resolveFuel cycLookup (n + 1) false cycEntity = none
      have step : resolveFuel cycLookup (n + 1) false cycEntity
          = (((resolveFuel cycLookup n true (.str "urn:li:test:A")).bind
              (fun rv => some [("*self", rv), ("self", rv)])).bind
              (fun tail => (resolveFuel cycLookup n false (.str "urn:li:test:A")).bind
                (fun rv => some (("entityUrn", rv) :: tail)))).map J.obj := rfl
      rw [step, ih.1]
      rfl

/-- A full raw response whose root holds a reference into the cyclic
included entity. -/
def cycRaw : J :=
  .obj [("data", .obj [("*root", .str "urn:li:test:A")]),
        ("included", .arr [cycEntity])]

/-- Denormalization of `raw` never returns within any recursion depth. -/
def denormalizeDiverges (raw : J) : Prop :=
  ∀ fuel, denormalizeFuel fuel raw = none

/-- C1 counterexample: on a graph whose `included` entry holds a reference to
its own key, `Linkedin._denormalize` / `Linkedin._resolve` recurse without
bound (a Python `RecursionError`), so resolution neither terminates normally
nor leaves the reference string in place for this input. -/
theorem C1_counterexample : denormalizeDiverges cycRaw := by
  intro fuel
  have step : denormalizeFuel fuel cycRaw
      = resolveFuel cycLookup fuel false (.obj [("*root", .str "urn:li:test:A")]) := rfl
  rw [step]
  cases fuel with
  | zero => rfl
  | succ n =>
    have step2 : resolveFuel cycLookup (n + 1) false (.obj [("*root", .str "urn:li:test:A")])
        = ((resolveFuel cycLookup n true (.str "urn:li:test:A")).bind
            (fun rv => some [("*root", rv), ("root", rv)])).map J.obj := rfl
    rw [step2, (cyc_resolve_none n).1]
    rfl

/-- C1 (amended): `_resolve` leaves a reference whose key is missing from the
`included` lookup in place as the original reference string, without raising;
but termination does not hold for every graph — a reference cycle reachable
from the root (e.g. a self-reference) recurses without bound, as
`C1_counterexample` shows. -/
theorem C1_missing_ref_left_in_place (lookup : List (String × J)) (s : String)
    (fuel : Nat) (h : dictGet lookup s = none) :
    resolveFuel lookup (fuel + 1) true (.str s) = some (.str s) := by
  simp [resolveFuel, h]

/-- Witness for `C1_missing_ref_left_in_place` at a concrete missing key. -/
theorem C1_witness :
    resolveFuel cycLookup 1 true (.str "urn:li:test:absent")
      = some (.str "urn:li:test:absent") :=
  C1_missing_ref_left_in_place cycLookup "urn:li:test:absent" 0 rfl

/-! ## VoyagerClient: `Client.authenticate` (client.py)

We embed the error-classification logic of `authenticate` over the login
response.  `data = res.json()`; `dataTruthy` is the Python truthiness of that
parsed body (`data and ...`), `loginResult` its `login_result` field. -/

structure AuthResponse where
  statusCode : Int
  dataTruthy : Bool
  loginResult : Option String
  text : String
deriving DecidableEq

inductive AuthOutcome where
  | challenge (result : String)     -- raise ChallengeError(...)
  | unauthorized                    -- raise UnauthorizedError()
  | requestError (status : Int) (body : String)  -- raise LinkedInRequestError(...)
  | ok                              -- set_cookies(res.cookies); _fetch_metadata()
deriving DecidableEq

/-- The raise/succeed decision of `Client.authenticate`, in source order:
`if data and data.get("login_result") != "PASS"` first, then
`if res.status_code == 401`, then `if res.status_code != 200`
(with the body truncated to 200 characters). -/
def authenticateOutcome (res : AuthResponse) : AuthOutcome :=
  if res.dataTruthy && !(res.loginResult == some "PASS") then
    .challenge (res.loginResult.getD "UNKNOWN")
  else if res.statusCode = 401 then .unauthorized
  else if res.statusCode ≠ 200 then .requestError res.statusCode (strTake res.text 200)
  else .ok

/-- A 401 response whose body also reports a non-PASS login result. -/
def authRes401Challenge : AuthResponse :=
  ⟨401, true, some "CHALLENGE", ""⟩

/-- C2 counterexample: on an HTTP 401 response whose body carries
`login_result = "CHALLENGE"`, `authenticate` raises ChallengeError, not
UnauthorizedError — the challenge check runs before the status checks, so
"raises UnauthorizedError when the HTTP status is 401" fails as stated. -/
theorem C2_counterexample :
    authenticateOutcome authRes401Challenge = .challenge "CHALLENGE" ∧
    authenticateOutcome authRes401Challenge ≠ .unauthorized := by
  exact ⟨rfl, by decide⟩

/-- C2 (amended): the ChallengeError check takes precedence: a truthy body
whose `login_result` is not `"PASS"` raises ChallengeError regardless of
status; when that check does not fire, HTTP 401 raises UnauthorizedError and
any other non-200 (hence any other non-2xx) status raises
LinkedInRequestError carrying the status code and the body truncated to 200
characters. -/
theorem C2_authenticate_outcomes (res : AuthResponse) :
    (res.dataTruthy = true → res.loginResult ≠ some "PASS" →
        authenticateOutcome res = .challenge (res.loginResult.getD "UNKNOWN")) ∧
    ((res.dataTruthy = false ∨ res.loginResult = some "PASS") →
        (res.statusCode = 401 → authenticateOutcome res = .unauthorized) ∧
        (res.statusCode ≠ 401 → res.statusCode ≠ 200 →
            authenticateOutcome res = .requestError res.statusCode (strTake res.text 200))) := by
  constructor
  · intro hd hl
    simp [authenticateOutcome, hd, hl]
  · intro hquiet
    have hcond : (res.dataTruthy && !(res.loginResult == some "PASS")) = false := by
      rcases hquiet with h | h <;> simp [h]
    constructor
    · intro h401
      simp [authenticateOutcome, hcond, h401]
    · intro h401 h200
      simp [authenticateOutcome, hcond, h401, h200]

/-- Witness for `C2_authenticate_outcomes`: a 500 response with a PASS body
raises LinkedInRequestError with the status and truncated body. -/
theorem C2_witness :
    authenticateOutcome ⟨500, true, some "PASS", "server error"⟩
      = .requestError 500 (strTake "server error" 200) :=
  ((C2_authenticate_outcomes ⟨500, true, some "PASS", "server error"⟩).2
    (Or.inr rfl)).2 (by decide) (by decide)

/-! ## RateLimiter (rate_limiter.py)

Wall-clock times are rationals.  Each `wait()` call reads the clock (`now`),
draws random values (given as inputs, with validity bounds mirroring the
`random.uniform` ranges), sleeps, and reads the clock again: the recorded
timestamp is `now + delay + slop`, where `slop ≥ 0` is whatever extra
wall-clock time passed beyond the requested sleep. -/

structure RLConfig where
  requestsPerMinute : Nat
  minDelay : ℚ
  maxDelay : ℚ
  burstSize : Nat

def WINDOW_SIZE_SECONDS : ℚ := 60
def BURST_DETECTION_WINDOW_SECONDS : ℚ := 10
def FIRST_REQUEST_DELAY_MULTIPLIER : ℚ := 1/2
def BURST_JITTER_MULTIPLIER : ℚ := 1/2
def NORMAL_JITTER_MIN : ℚ := -(1/2)
def NORMAL_JITTER_MAX : ℚ := 3/2

structure RLState where
  requestTimes : List ℚ      -- the deque, in append (ascending time) order
  lastRequestTime : Option ℚ

def rlInit : RLState := ⟨[], none⟩

/-- One `wait()` call's environment: clock reading and random draws. -/
structure WaitInput where
  now : ℚ
  uFirst : ℚ        -- random.uniform(min_delay * 0.5, min_delay)
  uBurstJitter : ℚ  -- random.uniform(0, max_delay * 0.5)
  uBase : ℚ         -- random.uniform(min_delay, max_delay)
  uJitter : ℚ       -- random.uniform(-0.5, 1.5)
  slop : ℚ          -- extra elapsed wall time beyond the requested sleep

/-- `_cleanup`: pop entries older than the 60-second window from the left of
the time-ordered deque. -/
def rlCleanup (now : ℚ) : List ℚ → List ℚ
  | [] => []
  | t :: rest =>
      if WINDOW_SIZE_SECONDS < now - t then rlCleanup now rest else t :: rest

/-- `_count_recent(now, window)`. -/
def rlCountRecent (now window : ℚ) : List ℚ → Nat
  | [] => 0
  | t :: rest =>
      (if now - t < window then 1 else 0) + rlCountRecent now window rest

/-- `_calculate_delay(now)`. -/
def rlCalculateDelay (cfg : RLConfig) (times : List ℚ) (lastReq : Option ℚ)
    (inp : WaitInput) : ℚ :=
  match lastReq with
  | none => inp.uFirst
  | some last =>
      let sinceLast := inp.now - last
      let recent := rlCountRecent inp.now BURST_DETECTION_WINDOW_SECONDS times
      let baseJitter : ℚ × ℚ :=
        if cfg.burstSize ≤ recent then (cfg.maxDelay, inp.uBurstJitter)
        else (inp.uBase, inp.uJitter)
      let needed := max 0 (cfg.minDelay - sinceLast)
      max needed (baseJitter.1 + baseJitter.2)

/-- `_enforce_rate_limit(now, base)`.  With `requestsPerMinute = 0` and an
empty deque the Python indexing `request_times[0]` would raise; that branch is
unreachable for any configuration with at least one request per minute. -/
def rlEnforceRateLimit (cfg : RLConfig) (times : List ℚ) (now base : ℚ) : ℚ :=
  if cfg.requestsPerMinute ≤ times.length then
    match times.head? with
    | some oldest =>
        let wait := WINDOW_SIZE_SECONDS - (now - oldest)
        if 0 < wait then max base wait else base
    | none => base
  else base

/-- One `wait()` call: cleanup, compute the delay, enforce the window, sleep,
record the post-sleep clock reading. -/
def waitStep (cfg : RLConfig) (st : RLState) (inp : WaitInput) : RLState × ℚ :=
  let times := rlCleanup inp.now st.requestTimes
  let delay0 := rlCalculateDelay cfg times st.lastRequestTime inp
  let delay := rlEnforceRateLimit cfg times inp.now delay0
  let actual := inp.now + delay + inp.slop
  (⟨times ++ [actual], some actual⟩, delay)

/-- `reset()`: clear the timestamp deque and the last-request marker. -/
def rlReset (_st : RLState) : RLState := ⟨[], none⟩

/-- Validity of one call's inputs: the random draws lie in their
`random.uniform` ranges and time only moves forward during the sleep. -/
def ValidInput (cfg : RLConfig) (inp : WaitInput) : Prop :=
  cfg.minDelay * FIRST_REQUEST_DELAY_MULTIPLIER ≤ inp.uFirst ∧
  inp.uFirst ≤ cfg.minDelay ∧
  0 ≤ inp.uBurstJitter ∧ inp.uBurstJitter ≤ cfg.maxDelay * BURST_JITTER_MULTIPLIER ∧
  cfg.minDelay ≤ inp.uBase ∧ inp.uBase ≤ cfg.maxDelay ∧
  NORMAL_JITTER_MIN ≤ inp.uJitter ∧ inp.uJitter ≤ NORMAL_JITTER_MAX ∧
  0 ≤ inp.slop

/-- Run a sequence of `wait()` calls. -/
def runTrace (cfg : RLConfig) : RLState → List WaitInput → RLState
  | st, [] => st
  | st, inp :: rest => runTrace cfg (waitStep cfg st inp).1 rest

/-- The whole call sequence is executable: every input is valid and each
call's clock reading is no earlier than the previous call's recorded
timestamp. -/
def ValidTrace (cfg : RLConfig) : RLState → List WaitInput → Prop
  | _, [] => True
  | st, inp :: rest =>
      ValidInput cfg inp ∧
      st.lastRequestTime.getD inp.now ≤ inp.now ∧
      ValidTrace cfg (waitStep cfg st inp).1 rest

/-- Number of recorded timestamps inside the sliding 60-second window ending
at time `t`. -/
def inWindowCount (t : ℚ) : List ℚ → Nat
  | [] => 0
  | x :: rest =>
      (if t - WINDOW_SIZE_SECONDS < x ∧ x ≤ t then 1 else 0) + inWindowCount t rest

/-- The configuration of the counterexample run: 2 requests/minute,
delay range 3–8 s, burst size 3. -/
def rlCfg2 : RLConfig := ⟨2, 3, 8, 3⟩

/-- Four `wait()` calls whose recorded timestamps are 100, 130, 160, 163: at
the fourth call the entry at time 100 is exactly 60 s old, so cleanup retains
it while its enforced wait is 0. -/
def rlCexInputs : List WaitInput :=
  [⟨197/2, 3/2, 0, 3, 0, 0⟩,
   ⟨125, 3/2, 0, 7/2, 3/2, 0⟩,
   ⟨155, 3/2, 0, 3, -(1/2), 0⟩,
   ⟨160, 3/2, 0, 3, -(1/2), 0⟩]

theorem rlCexStep1 :
    waitStep rlCfg2 rlInit ⟨197/2, 3/2, 0, 3, 0, 0⟩ = (⟨[100], some 100⟩, 3/2) := by
  norm_num [waitStep, rlInit, rlCfg2, rlCleanup, rlCalculateDelay,
    rlEnforceRateLimit]

theorem rlCexStep2 :
    waitStep rlCfg2 ⟨[100], some 100⟩ ⟨125, 3/2, 0, 7/2, 3/2, 0⟩
      = (⟨[100, 130], some 130⟩, 5) := by
  norm_num [waitStep, rlCfg2, rlCleanup, rlCalculateDelay, rlCountRecent,
    rlEnforceRateLimit, WINDOW_SIZE_SECONDS, BURST_DETECTION_WINDOW_SECONDS,
    max_def]

theorem rlCexStep3 :
    waitStep rlCfg2 ⟨[100, 130], some 130⟩ ⟨155, 3/2, 0, 3, -(1/2), 0⟩
      = (⟨[100, 130, 160], some 160⟩, 5) := by
  norm_num [waitStep, rlCfg2, rlCleanup, rlCalculateDelay, rlCountRecent,
    rlEnforceRateLimit, WINDOW_SIZE_SECONDS, BURST_DETECTION_WINDOW_SECONDS,
    max_def]

theorem rlCexStep4 :
    waitStep rlCfg2 ⟨[100, 130, 160], some 160⟩ ⟨160, 3/2, 0, 3, -(1/2), 0⟩
      = (⟨[100, 130, 160, 163], some 163⟩, 3) := by
  norm_num [waitStep, rlCfg2, rlCleanup, rlCalculateDelay, rlCountRecent,
    rlEnforceRateLimit, WINDOW_SIZE_SECONDS, BURST_DETECTION_WINDOW_SECONDS,
    max_def]

/-- C7 counterexample: a valid 4-call execution with `requests_per_minute = 2`
after which the timestamps 130, 160 and 163 — three of them — lie inside one
sliding 60-second window: the no-more-than-k invariant fails as stated. -/
theorem C7_counterexample :
    ValidTrace rlCfg2 rlInit rlCexInputs ∧
    rlCfg2.requestsPerMinute = 2 ∧
    inWindowCount 163 (runTrace rlCfg2 rlInit rlCexInputs).requestTimes = 3 := by
  refine ⟨?_, rfl, ?_⟩
  · show ValidTrace rlCfg2 rlInit rlCexInputs
    simp only [rlCexInputs, ValidTrace, rlCexStep1, rlCexStep2, rlCexStep3, rlCexStep4]
    norm_num [ValidInput, rlCfg2, rlInit, FIRST_REQUEST_DELAY_MULTIPLIER,
      BURST_JITTER_MULTIPLIER, NORMAL_JITTER_MIN, NORMAL_JITTER_MAX]
  · show inWindowCount 163 (runTrace rlCfg2 rlInit rlCexInputs).requestTimes = 3
    simp only [rlCexInputs, runTrace, rlCexStep1, rlCexStep2, rlCexStep3, rlCexStep4]
    norm_num [inWindowCount, WINDOW_SIZE_SECONDS]

/-- The delay computed by `_calculate_delay` is never negative (given a
non-negative `min_delay` and in-range random draws). -/
theorem rlCalculateDelay_nonneg (cfg : RLConfig) (times : List ℚ)
    (lastReq : Option ℚ) (inp : WaitInput)
    (hval : ValidInput cfg inp) (hmin : 0 ≤ cfg.minDelay) :
    0 ≤ rlCalculateDelay cfg times lastReq inp := by
  obtain ⟨h1, -, -, -, -, -, -, -, -⟩ := hval
  cases lastReq with
  | none =>
      have hm : (0 : ℚ) ≤ cfg.minDelay * FIRST_REQUEST_DELAY_MULTIPLIER := by
        have h0 : (0 : ℚ) ≤ FIRST_REQUEST_DELAY_MULTIPLIER := by
          norm_num [FIRST_REQUEST_DELAY_MULTIPLIER]
        exact mul_nonneg hmin h0
      simpa [rlCalculateDelay] using le_trans hm h1
  | some last =>
      simp only [rlCalculateDelay]
      exact le_trans (le_max_left 0 _) (le_max_left _ _)

/-- C7 (amended): whenever the cleaned window already holds at least
`requests_per_minute` entries, the delay returned by `wait()` is at least
`60 − (now − oldest)`; but the "never more than k timestamps in any sliding
60-second window" part fails — `C7_counterexample` exhibits a valid run whose
window holds k + 1 entries, because an entry exactly 60 seconds old is
retained with an enforced wait of zero and enforcement only pushes the
deque's oldest entry out of the window. -/
theorem C7_enforced_delay (cfg : RLConfig) (st : RLState) (inp : WaitInput)
    (oldest : ℚ) (hval : ValidInput cfg inp) (hmin : 0 ≤ cfg.minDelay)
    (hlen : cfg.requestsPerMinute ≤ (rlCleanup inp.now st.requestTimes).length)
    (hhead : (rlCleanup inp.now st.requestTimes).head? = some oldest) :
    WINDOW_SIZE_SECONDS - (inp.now - oldest) ≤ (waitStep cfg st inp).2 := by
  have hbase : 0 ≤ rlCalculateDelay cfg (rlCleanup inp.now st.requestTimes)
      st.lastRequestTime inp := rlCalculateDelay_nonneg cfg _ _ inp hval hmin
  show WINDOW_SIZE_SECONDS - (inp.now - oldest)
      ≤ rlEnforceRateLimit cfg (rlCleanup inp.now st.requestTimes) inp.now
          (rlCalculateDelay cfg (rlCleanup inp.now st.requestTimes) st.lastRequestTime inp)
  rw [rlEnforceRateLimit, if_pos hlen, hhead]
  show WINDOW_SIZE_SECONDS - (inp.now - oldest) ≤
      (if 0 < WINDOW_SIZE_SECONDS - (inp.now - oldest) then
        max (rlCalculateDelay cfg (rlCleanup inp.now st.requestTimes)
          st.lastRequestTime inp) (WINDOW_SIZE_SECONDS - (inp.now - oldest))
      else
        rlCalculateDelay cfg (rlCleanup inp.now st.requestTimes)
          st.lastRequestTime inp)
  by_cases hw : 0 < WINDOW_SIZE_SECONDS - (inp.now - oldest)
  · rw [if_pos hw]
    exact le_max_right _ _
  · rw [if_neg hw]
    exact le_trans (le_of_not_lt hw) hbase

/-- Witness for `C7_enforced_delay`: with one entry at time 0, `now = 30` and
`requests_per_minute = 1`, the returned delay is at least 30. -/
theorem C7_witness :
    WINDOW_SIZE_SECONDS - ((30 : ℚ) - 0)
      ≤ (waitStep ⟨1, 3, 8, 3⟩ ⟨[0], some 0⟩ ⟨30, 3/2, 0, 3, 0, 0⟩).2 :=
  C7_enforced_delay ⟨1, 3, 8, 3⟩ ⟨[0], some 0⟩ ⟨30, 3/2, 0, 3, 0, 0⟩ 0
    (by norm_num [ValidInput, FIRST_REQUEST_DELAY_MULTIPLIER, BURST_JITTER_MULTIPLIER,
      NORMAL_JITTER_MIN, NORMAL_JITTER_MAX])
    (by norm_num)
    (by norm_num [rlCleanup, WINDOW_SIZE_SECONDS])
    (by norm_num [rlCleanup, WINDOW_SIZE_SECONDS])

/-- C8: `reset()` clears the timestamp deque and the last-request marker, and
the next `wait()` behaves as a first-ever call: its delay is exactly the
warm-up draw `uniform(min_delay/2, min_delay)`, hence lies in that range and
is never negative. -/
theorem C8_reset_behaves_as_first_call (cfg : RLConfig) (st : RLState)
    (inp : WaitInput) (hval : ValidInput cfg inp)
    (hrpm : 1 ≤ cfg.requestsPerMinute) (hmin : 0 ≤ cfg.minDelay) :
    rlReset st = ⟨[], none⟩ ∧
    (waitStep cfg (rlReset st) inp).2 = inp.uFirst ∧
    cfg.minDelay * FIRST_REQUEST_DELAY_MULTIPLIER ≤ (waitStep cfg (rlReset st) inp).2 ∧
    (waitStep cfg (rlReset st) inp).2 ≤ cfg.minDelay ∧
    0 ≤ (waitStep cfg (rlReset st) inp).2 := by
  obtain ⟨h1, h2, -, -, -, -, -, -, -⟩ := hval
  have hdelay : (waitStep cfg (rlReset st) inp).2 = inp.uFirst := by
    show rlEnforceRateLimit cfg (rlCleanup inp.now []) inp.now
        (rlCalculateDelay cfg (rlCleanup inp.now []) none inp) = inp.uFirst
    have hclean : rlCleanup inp.now [] = [] := rfl
    rw [hclean]
    have hnotle : ¬ cfg.requestsPerMinute ≤ ([] : List ℚ).length := by
      simp only [List.length_nil]
      omega
    rw [rlEnforceRateLimit, if_neg hnotle]
    rfl
  have hnonneg : 0 ≤ inp.uFirst := by
    have hm : (0 : ℚ) ≤ cfg.minDelay * FIRST_REQUEST_DELAY_MULTIPLIER := by
      have h0 : (0 : ℚ) ≤ FIRST_REQUEST_DELAY_MULTIPLIER := by
        norm_num [FIRST_REQUEST_DELAY_MULTIPLIER]
      exact mul_nonneg hmin h0
    exact le_trans hm h1
  exact ⟨rfl, hdelay, by rw [hdelay]; exact h1, by rw [hdelay]; exact h2,
    by rw [hdelay]; exact hnonneg⟩

/-- Witness for `C8_reset_behaves_as_first_call` on the default configuration
(10 req/min, delay 3–8 s). -/
theorem C8_witness :
    (waitStep ⟨10, 3, 8, 3⟩ (rlReset ⟨[5, 7], some 7⟩) ⟨100, 2, 0, 3, 0, 0⟩).2 = 2 ∧
    0 ≤ (waitStep ⟨10, 3, 8, 3⟩ (rlReset ⟨[5, 7], some 7⟩) ⟨100, 2, 0, 3, 0, 0⟩).2 :=
  ⟨(C8_reset_behaves_as_first_call ⟨10, 3, 8, 3⟩ ⟨[5, 7], some 7⟩ ⟨100, 2, 0, 3, 0, 0⟩
      (by norm_num [ValidInput, FIRST_REQUEST_DELAY_MULTIPLIER, BURST_JITTER_MULTIPLIER,
        NORMAL_JITTER_MIN, NORMAL_JITTER_MAX]) (by norm_num) (by norm_num)).2.1,
   (C8_reset_behaves_as_first_call ⟨10, 3, 8, 3⟩ ⟨[5, 7], some 7⟩ ⟨100, 2, 0, 3, 0, 0⟩
      (by norm_num [ValidInput, FIRST_REQUEST_DELAY_MULTIPLIER, BURST_JITTER_MULTIPLIER,
        NORMAL_JITTER_MIN, NORMAL_JITTER_MAX]) (by norm_num) (by norm_num)).2.2.2.2⟩

/-- The enforced delay never falls below the base delay. -/
theorem rlEnforceRateLimit_ge_base (cfg : RLConfig) (times : List ℚ)
    (now base : ℚ) : base ≤ rlEnforceRateLimit cfg times now base := by
  rw [rlEnforceRateLimit]
  by_cases hlen : cfg.requestsPerMinute ≤ times.length
  · rw [if_pos hlen]
    cases hh : times.head? with
    | none => exact le_refl base
    | some oldest =>
        show base ≤ (if 0 < WINDOW_SIZE_SECONDS - (now - oldest) then
            max base (WINDOW_SIZE_SECONDS - (now - oldest)) else base)
        by_cases hw : 0 < WINDOW_SIZE_SECONDS - (now - oldest)
        · rw [if_pos hw]
          exact le_max_left _ _
        · rw [if_neg hw]
  · rw [if_neg hlen]

/-- C10: on any call that is not the first since construction or reset
(`last_request_time = some l`), the computed delay is at least
`min_delay − (now − l)`, so the newly recorded timestamp is at least
`min_delay` after the previously recorded one. -/
theorem C10_min_gap (cfg : RLConfig) (st : RLState) (inp : WaitInput) (l : ℚ)
    (hlast : st.lastRequestTime = some l) (hslop : 0 ≤ inp.slop) :
    cfg.minDelay - (inp.now - l) ≤ (waitStep cfg st inp).2 ∧
    (waitStep cfg st inp).1.lastRequestTime
      = some (inp.now + (waitStep cfg st inp).2 + inp.slop) ∧
    l + cfg.minDelay ≤ inp.now + (waitStep cfg st inp).2 + inp.slop := by
  have hcalc : cfg.minDelay - (inp.now - l)
      ≤ rlCalculateDelay cfg (rlCleanup inp.now st.requestTimes)
          st.lastRequestTime inp := by
    rw [hlast, rlCalculateDelay]
    exact le_trans (le_max_right 0 _) (le_max_left _ _)
  have hdelay : cfg.minDelay - (inp.now - l) ≤ (waitStep cfg st inp).2 :=
    le_trans hcalc (rlEnforceRateLimit_ge_base cfg _ inp.now _)
  refine ⟨hdelay, rfl, ?_⟩
  have hadd := add_le_add_left hdelay inp.now
  have h2 : inp.now + (cfg.minDelay - (inp.now - l)) = l + cfg.minDelay := by ring
  calc l + cfg.minDelay = inp.now + (cfg.minDelay - (inp.now - l)) := h2.symm
    _ ≤ inp.now + (waitStep cfg st inp).2 := hadd
    _ ≤ inp.now + (waitStep cfg st inp).2 + inp.slop := by linarith

/-- Witness for `C10_min_gap`: last request at 10, `now = 11`, `min_delay = 3`
— the recorded timestamp is at least 13. -/
theorem C10_witness :
    (10 : ℚ) + 3 ≤ 11 + (waitStep ⟨10, 3, 8, 3⟩ ⟨[10], some 10⟩ ⟨11, 2, 0, 3, 0, 0⟩).2 + 0 :=
  (C10_min_gap ⟨10, 3, 8, 3⟩ ⟨[10], some 10⟩ ⟨11, 2, 0, 3, 0, 0⟩ 10 rfl (by norm_num)).2.2


/-! ## SearchEngine: `Linkedin._fetch_search_with_fallback` (linkedin.py)

`fetch qid` is the outcome of
`self._fetch(f"/graphql?variables=...&queryId=" + qid).json()` for one query
id (the `variables` part is fixed within one call).  The `.ok` result carries
the response together with the new value of the class-level
`Linkedin._active_search_query_id`; the second component of the returned pair
is the list of query ids attempted, in order. -/

structure LIReqError where
  status : Int
  message : String
deriving DecidableEq

/-- The static fallback list `Linkedin._SEARCH_QUERY_IDS`. -/
def SEARCH_QUERY_IDS : List String :=
  ["voyagerSearchDashClusters.b0928897b71bd00a5a7291755dcd64f0",
   "voyagerSearchDashClusters.5e03c5de2fddefb3fa19f8b35e1c0c49"]

/-- The `for qid in self._SEARCH_QUERY_IDS` loop: skip the active id, try the
rest in order; a success is remembered as the new active id; a non-500 error
propagates; exhaustion raises a final 500. -/
def rotateFallbacks (fetch : String → Except LIReqError J) (active : String) :
    List String → Except LIReqError (J × String) × List String
  | [] =>
      (.error ⟨500, "All known search queryIds returned 500. LinkedIn likely rotated their GraphQL schema — manual update required."⟩,
       [])
  | qid :: rest =>
      if qid = active then rotateFallbacks fetch active rest
      else
        match fetch qid with
        | .ok data => (.ok (data, qid), [qid])
        | .error e =>
            if e.status ≠ 500 then (.error e, [qid])
            else
              let r := rotateFallbacks fetch active rest
              (r.1, qid :: r.2)

/-- `Linkedin._fetch_search_with_fallback`: try the active query id first; on
an error whose status is not 500 re-raise immediately; on a 500 rotate
through the fallback list. -/
def fetchSearchWithFallback (fetch : String → Except LIReqError J)
    (qids : List String) (active : String) :
    Except LIReqError (J × String) × List String :=
  match fetch active with
  | .ok data => (.ok (data, active), [active])
  | .error e =>
      if e.status ≠ 500 then (.error e, [active])
      else
        let r := rotateFallbacks fetch active qids
        (r.1, active :: r.2)

/-- C5: with the query-id list `active :: q1 :: rest`, (i) a 500 on the
active id followed by a success on the first fallback returns that response,
remembers `q1` as the new active id, and attempts exactly `[active, q1]`;
(ii) a subsequent call with `q1` active succeeds on its first attempt without
re-attempting the old primary; (iii) an error whose status is not 500
propagates immediately after a single attempt. -/
theorem C5_query_id_rotation (fetch fetchNext : String → Except LIReqError J)
    (active q1 : String) (rest : List String) (d dNext : J) (e : LIReqError)
    (h500 : fetch active = .error e) (hs : e.status = 500) (hq1 : q1 ≠ active)
    (hok : fetch q1 = .ok d) (hnext : fetchNext q1 = .ok dNext) :
    fetchSearchWithFallback fetch (active :: q1 :: rest) active
      = (.ok (d, q1), [active, q1]) ∧
    fetchSearchWithFallback fetchNext (active :: q1 :: rest) q1
      = (.ok (dNext, q1), [q1]) ∧
    (∀ (f : String → Except LIReqError J) (a : String) (e' : LIReqError),
        f a = .error e' → e'.status ≠ 500 →
        fetchSearchWithFallback f (active :: q1 :: rest) a = (.error e', [a])) := by
  refine ⟨?_, ?_, ?_⟩
  · rw [fetchSearchWithFallback, h500]
    simp only [hs, ne_eq, not_true_eq_false, if_false]
    rw [rotateFallbacks, if_pos rfl, rotateFallbacks, if_neg hq1, hok]
  · rw [fetchSearchWithFallback, hnext]
  · intro f a e' herr hst
    rw [fetchSearchWithFallback, herr]
    show (if e'.status ≠ 500 then ((.error e' : Except LIReqError (J × String)), [a])
          else ((rotateFallbacks f a (active :: q1 :: rest)).1,
                a :: (rotateFallbacks f a (active :: q1 :: rest)).2)) = (.error e', [a])
    rw [if_pos hst]

/-- A mock backend: HTTP 500 for the primary query id, success for the
fallback. -/
def cexFetch500 (qid : String) : Except LIReqError J :=
  if qid = "voyagerSearchDashClusters.b0928897b71bd00a5a7291755dcd64f0" then
    .error ⟨500, "INTERNAL_SERVER_ERROR"⟩
  else .ok (.obj [("data", .null)])

/-- Witness for `C5_query_id_rotation` on the real query-id list. -/
theorem C5_witness :
    fetchSearchWithFallback cexFetch500 SEARCH_QUERY_IDS
        "voyagerSearchDashClusters.b0928897b71bd00a5a7291755dcd64f0"
      = (.ok (.obj [("data", .null)],
              "voyagerSearchDashClusters.5e03c5de2fddefb3fa19f8b35e1c0c49"),
         ["voyagerSearchDashClusters.b0928897b71bd00a5a7291755dcd64f0",
          "voyagerSearchDashClusters.5e03c5de2fddefb3fa19f8b35e1c0c49"]) :=
  (C5_query_id_rotation cexFetch500 cexFetch500
    "voyagerSearchDashClusters.b0928897b71bd00a5a7291755dcd64f0"
    "voyagerSearchDashClusters.5e03c5de2fddefb3fa19f8b35e1c0c49" [] (.obj [("data", .null)])
    (.obj [("data", .null)]) ⟨500, "INTERNAL_SERVER_ERROR"⟩ rfl rfl (by decide) rfl rfl).1


/-! ## SearchEngine: `Linkedin._search` pagination (linkedin.py)

`fetchData k` is the JSON returned by the `k`-th call to
`_fetch_search_with_fallback` (assumed successful here; the rotation logic is
modelled above).  We embed the response parsing — cluster extraction,
included-map resolution, type filtering — and the pagination loop with its
three stop conditions.  The loop has no bound in Python; `fuel` only caps the
number of modelled iterations and is chosen large enough in every use. -/

/-- `outer.get("searchDashClustersByAll") or outer.get("data", {}).get("searchDashClustersByAll", {})`
with `outer = data.get("data", {})`. -/
def clustersOf (data : J) : J :=
  let outer := (objGet data "data").getD (.obj [])
  let c1 := (objGet outer "searchDashClustersByAll").getD .null
  if jTruthy c1 then c1
  else (objGet ((objGet outer "data").getD (.obj [])) "searchDashClustersByAll").getD (.obj [])

/-- The `included_map` built from `data.get("included", [])`: entries whose
`entityUrn` is truthy, last assignment winning.  A non-string `entityUrn`
key can never be hit by the string reference `item.get("*entityResult")`, so
such entries are omitted. -/
def includedMapOf (data : J) : List (String × J) :=
  let included := match objGet data "included" with
    | some (.arr xs) => xs
    | _ => []
  included.filterMap (fun inc =>
    match objGet inc "entityUrn" with
    | some (.str u) => if u ≠ "" then some (u, inc) else none
    | _ => none)

/-- `it.get("_type") or it.get("$type", "")`, as a string.  A non-string tag
would make Python's `in` test raise; the API uses string type tags. -/
def typeTag (e : J) : String :=
  let t1 := (objGet e "_type").getD .null
  let t2 := if jTruthy t1 then t1 else (objGet e "$type").getD (.str "")
  match t2 with
  | .str s => s
  | _ => ""

/-- The inner `for el in it.get("items", [])` loop: take `item["entityResult"]`
or resolve `item["*entityResult"]` through the included map, skip falsy
entries and entries whose type tag lacks `"EntityResultViewModel"`. -/
def resultItemsOf (imap : List (String × J)) (it : J) : List J :=
  let items := match objGet it "items" with
    | some (.arr xs) => xs
    | _ => []
  items.filterMap (fun el =>
    let item := (objGet el "item").getD (.obj [])
    let e0 := (objGet item "entityResult").getD .null
    let e1 :=
      if jTruthy e0 then e0
      else
        let ref := match objGet item "*entityResult" with
          | some (.str s) => s
          | _ => ""
        if ref ≠ "" then (dictGet imap ref).getD .null else .null
    if jTruthy e1 && strContains (typeTag e1) "EntityResultViewModel" then some e1
    else none)

/-- `new_elements` for one response: iterate `clusters.get("elements", [])`,
keeping clusters whose type tag contains `"SearchClusterViewModel"` or is
empty, and collect their filtered items. -/
def newElementsOf (data : J) : List J :=
  let clusters := clustersOf data
  let imap := includedMapOf data
  let elements := match objGet clusters "elements" with
    | some (.arr xs) => xs
    | _ => []
  (elements.filter (fun it =>
      let et := typeTag it
      strContains et "SearchClusterViewModel" || et == "")).flatMap (resultItemsOf imap)

def MAX_SEARCH_COUNT : Int := 49
def MAX_REPEATED_REQUESTS : Int := 200

/-- The `while True` loop of `Linkedin._search`, returning the collected
results and the number of requests made.  The repeated-request condition
`len(results) / count >= 200` (Python true division) is modelled as
`200 * count ≤ len(results)`, equivalent whenever it is evaluated: `count`
is positive there, because a non-positive `count` forces the
limit-reached condition, which Python's `or` checks first. -/
def searchLoop (fetchData : Nat → J) (limit : Int) :
    Nat → Int → List J → Nat → List J × Nat
  | 0, _, results, calls => (results, calls)
  | fuel + 1, count, results, calls =>
      let count := if -1 < limit ∧ limit - results.length < count
                   then limit - (results.length : Int) else count
      let data := fetchData calls
      let clusters := clustersOf data
      if !jTruthy clusters then (results, calls + 1)
      else
        let newElements := newElementsOf data
        let results := results ++ newElements
        if -1 < limit ∧ limit ≤ (results.length : Int) then (results, calls + 1)
        else if MAX_REPEATED_REQUESTS * count ≤ (results.length : Int) then (results, calls + 1)
        else if newElements.length = 0 then (results, calls + 1)
        else searchLoop fetchData limit fuel count results (calls + 1)

/-- `Linkedin._search(params, limit, offset)` (the `variables`/`start` string
only parameterizes the request and does not affect control flow; pages are
indexed by request number). -/
def searchRun (fetchData : Nat → J) (limit : Int) (fuel : Nat) : List J × Nat :=
  searchLoop fetchData limit fuel MAX_SEARCH_COUNT [] 0

/-- A mock `entityResult` entity. -/
def mkEntityResult (i : Nat) : J :=
  .obj [("$type", .str "EntityResultViewModel"),
        ("entityUrn", .str ("urn:li:test:" ++ toString i))]

/-- A mock response page carrying `n` entity results. -/
def mkPage (n : Nat) : J :=
  .obj [("data", .obj [("searchDashClustersByAll", .obj [
    ("elements", .arr [.obj [("items", .arr ((List.range n).map (fun i =>
      .obj [("item", .obj [("entityResult", mkEntityResult i)])])))]])])])]

/-- The mock backend of the pagination scenario: pages of sizes 50, 50, 0. -/
def pages505000 : Nat → J
  | 0 => mkPage 50
  | 1 => mkPage 50
  | _ => mkPage 0

/-- C6: with a backend returning pages of sizes 50, 50, 0 and `limit = 120`,
`_search` returns exactly 100 results in 3 requests — it stops right after
the empty page, far below the 200-repeated-requests ceiling; and in general
one loop iteration whose page contributes zero new elements returns the
accumulated results immediately (the other stop conditions — limit reached,
repeated-request ceiling — are the remaining disjuncts of the same break). -/
theorem C6_pagination :
    ((searchRun pages505000 120 10).1.length = 100 ∧ (searchRun pages505000 120 10).2 = 3) ∧
    (∀ (fetchData : Nat → J) (limit count : Int) (results : List J) (calls fuel : Nat),
        newElementsOf (fetchData calls) = [] →
        searchLoop fetchData limit (fuel + 1) count results calls = (results, calls + 1)) := by
  constructor
  · exact ⟨by decide, by decide⟩
  · intro fetchData limit count results calls fuel hempty
    rw [searchLoop]
    by_cases hcl : jTruthy (clustersOf (fetchData calls)) = true
    · rw [hcl]
      simp only [hempty, Bool.not_true, if_false, List.append_nil, List.length_nil]
      split
      · rfl
      · split
        · rfl
        · simp
    · have hcl' : jTruthy (clustersOf (fetchData calls)) = false := by
        cases h : jTruthy (clustersOf (fetchData calls))
        · rfl
        · exact absurd h hcl
      rw [hcl']
      rfl

/-- Witness for `C6_pagination`: the empty third page stops the loop at the
accumulated results. -/
theorem C6_witness :
    searchLoop pages505000 120 5 20 [mkEntityResult 0] 2 = ([mkEntityResult 0], 3) :=
  C6_pagination.2 pages505000 120 20 [mkEntityResult 0] 2 4 rfl


/-! ## Orchestrator: linkedin_service.py / linkedin_oauth.py

The effectful collaborators — `decrypt_credentials`, the Playwright login
(`create_linkedin_cookies`), the Voyager `search_people` call inside
`search_linkedin_sync` (together with the `Linkedin(cookies=...)`
construction) and the Playwright scraper — are oracles in `SvcEnv`; the
orchestration logic around them is embedded from the source.  Every function
returns its value together with the list of network calls it made, in
order. -/

structure CookieRec where
  name : String
  value : String
  domain : String
  path : String
deriving DecidableEq

/-- A Playwright `storage_state()` dict, modelled by its "cookies" list. -/
structure StorageState where
  cookies : List CookieRec
deriving DecidableEq

/-- `cookies_from_storage`: build a `RequestsCookieJar` from
`storage.get("cookies", [])` (the jar is its cookie list). -/
def cookiesFromStorage (storage : StorageState) : List CookieRec :=
  storage.cookies

/-- The `cookies` entry of a decrypted credential: either a Playwright
storage-state dict or a bare cookie list (`None` when absent or falsy). -/
inductive CookiesField where
  | storageDict (s : StorageState)
  | cookieList (cs : List CookieRec)
deriving DecidableEq

/-- A decrypted credential blob (`decrypt_credentials` result). -/
structure CredData where
  username : String
  password : String
  cookies : Option CookiesField
deriving DecidableEq

/-- The `ValueError` kinds raised by the service layer. -/
inductive SvcError where
  | invalidCredentials   -- "Invalid LinkedIn credentials"
  | authFailed           -- "LinkedIn авторизация не удалась: ..."
  | notConnected         -- "LinkedIn не подключён. Перейдите в Личный кабинет."
  | searchFailed         -- "Ошибка поиска LinkedIn: ..."
deriving DecidableEq

/-- Network interactions, in order. -/
inductive NetCall where
  | browserLogin                            -- create_linkedin_cookies
  | apiSearch (jar : List CookieRec)        -- Voyager search_people with these cookies
  | scraperSearch (storage : StorageState)  -- Playwright scraper fallback
deriving DecidableEq

/-- Exceptions escaping the Voyager search path. -/
inductive ApiError where
  | unauthorized                              -- UnauthorizedError
  | requestError (status : Int) (msg : String)  -- LinkedInRequestError
  | otherError (msg : String)                 -- any other exception
deriving DecidableEq

/-- One `search_people` result dict (keys always present, values optional). -/
structure Person where
  name : Option String
  jobtitle : Option String
  location : Option String
  navigationUrl : Option String
  urnId : Option String
deriving DecidableEq

/-- One scraper `PeopleSearchResult` (read back via `getattr(p, ..., None)`). -/
structure ScrapedPerson where
  name : Option String
  headline : Option String
  linkedinUrl : Option String
deriving DecidableEq

/-- Values of a candidate record: a string, `None`, or the call-time
`datetime.now().strftime("%d.%m.%Y %H:%M")` stamp. -/
inductive CVal where
  | vs (s : String)
  | vnone
  | vnow
deriving DecidableEq

/-- A candidate record: a Python dict written as a literal, so an ordered
key/value list. -/
abbrev Candidate := List (String × CVal)

/-- The oracles: outcomes of the effectful collaborators.  Call-indexed
oracles give the outcome of the n-th such call in one orchestrator run. -/
structure SvcEnv where
  decryptResult : Except Unit CredData
  createCookiesResult : Nat → Except Unit StorageState
  apiSearchResult : Nat → List CookieRec → Except ApiError (List Person)
  scraperResult : StorageState → Except Unit (List ScrapedPerson)

/-- Python `x or "—"` for an optional string (empty string is falsy). -/
def orDash : Option String → String
  | some s => if s = "" then "—" else s
  | none => "—"

/-- Python `s or "—"`. -/
def orDashStr (s : String) : String :=
  if s = "" then "—" else s

/-- `if nav and not nav.startswith("http"): ...` URL fixing in
`search_linkedin_sync`. -/
def fixNavUrl (nav : String) : String :=
  if nav ≠ "" ∧ strStarts nav "http" = false then
    if strStarts nav "/" then "https://www.linkedin.com" ++ nav
    else "https://www.linkedin.com/in/" ++ nav
  else nav

/-- The candidate dict built by `search_linkedin_sync` for one API result. -/
def apiCandidate (r : Person) : Candidate :=
  [("source", .vs "linkedin"),
   ("photo", .vnone),
   ("full_name", .vs (orDash r.name)),
   ("title", .vs (orDash r.jobtitle)),
   ("area", .vs (orDash r.location)),
   ("experience", .vs "—"),
   ("salary", .vs "—"),
   ("url", .vs (fixNavUrl ((r.navigationUrl).getD ""))),
   ("updated_at", .vs "—"),
   ("fetched_at", .vnow),
   ("urn_id", match r.urnId with | some s => .vs s | none => .vnone)]

/-- The candidate dict built by `_search_linkedin_scraper_in_thread` for one
scraped person. -/
def scrapedCandidate (p : ScrapedPerson) : Candidate :=
  [("source", .vs "linkedin"),
   ("photo", .vnone),
   ("full_name", .vs (orDash p.name)),
   ("title", .vs (orDash p.headline)),
   ("area", .vs "—"),
   ("experience", .vs "—"),
   ("salary", .vs "—"),
   ("url", .vs (orDashStr (p.linkedinUrl.getD ""))),
   ("updated_at", .vs "—"),
   ("fetched_at", .vnow),
   ("urn_id", .vnone)]

/-- Python whitespace characters relevant to `str.strip()` here. -/
def isPySpace (c : Char) : Bool :=
  c == ' ' || c == '\t' || c == '\n' || c == '\r'

/-- Python `s.strip()`. -/
def pyStrip (s : String) : String :=
  ⟨((s.data.dropWhile isPySpace).reverse.dropWhile isPySpace).reverse⟩

/-- Python `s.split(",")`. -/
def splitCommaAux : List Char → List Char → List String
  | acc, [] => [⟨acc.reverse⟩]
  | acc, c :: rest =>
      if c == ',' then ⟨acc.reverse⟩ :: splitCommaAux [] rest
      else splitCommaAux (c :: acc) rest

def splitComma (s : String) : List String :=
  splitCommaAux [] s.data

/-- `search_linkedin_sync(cookies_jar, keyword_title, keywords, limit)`:
empty keywords short-circuit to `[]` with no request; otherwise one
`search_people` call (the `Linkedin(cookies=...)` construction, the
`min(limit, 100)` cap and `include_private_profiles=True` are part of the
oracle call), whose results are mapped to candidate dicts and whose
exceptions re-raise. -/
def searchLinkedinSyncM (env : SvcEnv) (callIdx : Nat) (jar : List CookieRec)
    (keywordTitle keywords : String) (_limit : Nat) :
    Except ApiError (List Candidate) × List NetCall :=
  let kwTitle := pyStrip keywordTitle
  let kw := pyStrip keywords
  if kwTitle = "" ∧ kw = "" then (.ok [], [])
  else
    match env.apiSearchResult callIdx jar with
    | .ok rs => (.ok (rs.map apiCandidate), [.apiSearch jar])
    | .error e => (.error e, [.apiSearch jar])

/-- `_search_linkedin_scraper_in_thread(storage, keyword_title, keywords,
limit)`: the browser session, session loading and `scraper.search(...)` are
the oracle call; its results (capped at `limit`) are mapped to candidate
dicts. -/
def scraperThreadM (env : SvcEnv) (storage : StorageState) (limit : Nat) :
    Except Unit (List Candidate) × List NetCall :=
  match env.scraperResult storage with
  | .ok ps => (.ok ((ps.take limit).map scrapedCandidate), [.scraperSearch storage])
  | .error e => (.error e, [.scraperSearch storage])

/-- `resolve_cookies_from_credential`, after a successful decrypt: extract
`(cookies_jar, cookies_storage)` from the `cookies` entry.  A dict with a
truthy `"cookies"` list yields a jar and that dict; a non-empty bare list
yields a jar and `{"cookies": list}`; anything else yields neither. -/
def resolveCookiesFromCredential (data : CredData) :
    Option (List CookieRec) × Option StorageState :=
  match data.cookies with
  | none => (none, none)
  | some (.storageDict s) =>
      if s.cookies ≠ [] then (some (cookiesFromStorage s), some s)
      else (none, none)
  | some (.cookieList cs) =>
      if cs ≠ [] then (some cs, some ⟨cs⟩) else (none, none)

/-- Python `not cookies_jar` (no jar, or an empty jar). -/
def jarFalsy : Option (List CookieRec) → Bool
  | none => true
  | some jar => jar.isEmpty

def countLogins (tr : List NetCall) : Nat :=
  (tr.filter (fun c => match c with | .browserLogin => true | _ => false)).length

/-- `ensure_cookies(cred_encrypted)`: decrypt (raising "Invalid LinkedIn
credentials" on failure), extract stored cookies; when no jar results and a
username/password pair is present, create fresh cookies by headless login
(raising the auth-failure error if that raises) and mark them for
persistence; a still-missing jar raises the not-connected configuration
error. -/
def ensureCookiesM (env : SvcEnv) :
    Except SvcError (List CookieRec × Option StorageState × Option StorageState)
      × List NetCall :=
  match env.decryptResult with
  | .error _ => (.error .invalidCredentials, [])
  | .ok data =>
      let r := resolveCookiesFromCredential data
      if jarFalsy r.1 ∧ data.username ≠ "" ∧ data.password ≠ "" then
        match env.createCookiesResult 0 with
        | .error _ => (.error .authFailed, [.browserLogin])
        | .ok st =>
            let jar := cookiesFromStorage st
            if jar.isEmpty then (.error .notConnected, [.browserLogin])
            else (.ok (jar, some st, some st), [.browserLogin])
      else
        match r.1 with
        | none => (.error .notConnected, [])
        | some jar =>
            if jar.isEmpty then (.error .notConnected, [])
            else (.ok (jar, r.2, none), [])

/-- `HH_AREAS_DICT.get(area, "Беларусь")`; the area table lives in the
excluded configuration module and is passed in. -/
def hhAreaName (areas : Int → Option String) (area : Int) : String :=
  (areas area).getD "Беларусь"

/-- The keyword string built by `search_linkedin` from the location name and
the comma-separated skills. -/
def buildKeywords (locationName skills : String) : String :=
  let parts :=
    if pyStrip skills ≠ "" then
      let skillsClean :=
        String.intercalate " "
          (((splitComma skills).map pyStrip).filter (fun s => s ≠ ""))
      if skillsClean ≠ "" then [locationName, skillsClean] else [locationName]
    else [locationName]
  String.intercalate " " parts

/-- The scraper tier at the end of `search_linkedin`: use the fresh storage
if one was created (even when the retry search then failed), else the stored
one; with no storage at all, or on scraper failure, raise the final
search-failure error. -/
def scraperTier (env : SvcEnv) (storageOpt newStorage : Option StorageState)
    (limit : Nat) (tr : List NetCall) :
    Except SvcError (List Candidate × Option StorageState) × List NetCall :=
  match (match newStorage with | some st => some st | none => storageOpt) with
  | some st =>
      match scraperThreadM env st limit with
      | (.ok cands, trS) => (.ok (cands, newStorage), tr ++ trS)
      | (.error _, trS) => (.error .searchFailed, tr ++ trS)
  | none => (.error .searchFailed, tr)

/-- `search_linkedin(cred_encrypted, search_text, search_skills, area,
count)`: ensure cookies, run the structured search; on any exception decrypt
again and, given a username/password pair, refresh cookies by headless login
and retry the structured search once with the fresh jar; if that tier fails
(or is unavailable) fall back to the scraper; raise the final error when all
tiers fail. -/
def searchLinkedinM (env : SvcEnv) (areas : Int → Option String)
    (searchText searchSkills : String) (area : Int) (count : Nat) :
    Except SvcError (List Candidate × Option StorageState) × List NetCall :=
  match ensureCookiesM env with
  | (.error e, tr) => (.error e, tr)
  | (.ok (jar, storageOpt, toPersist), tr0) =>
      let keywordTitle := pyStrip searchText
      let locationName := hhAreaName areas area
      let keywords := buildKeywords locationName searchSkills
      match searchLinkedinSyncM env 0 jar keywordTitle keywords count with
      | (.ok cands, tr1) => (.ok (cands, toPersist), tr0 ++ tr1)
      | (.error _apiErr, tr1) =>
          match env.decryptResult with
          | .error _ => scraperTier env storageOpt none count (tr0 ++ tr1)
          | .ok data =>
              let username := pyStrip data.username
              if username ≠ "" ∧ data.password ≠ "" then
                match env.createCookiesResult (countLogins (tr0 ++ tr1)) with
                | .error _ =>
                    scraperTier env storageOpt none count (tr0 ++ tr1 ++ [.browserLogin])
                | .ok st =>
                    let newJar := cookiesFromStorage st
                    match searchLinkedinSyncM env 1 newJar keywordTitle keywords count with
                    | (.ok cands, tr2) =>
                        (.ok (cands, some st), tr0 ++ tr1 ++ [.browserLogin] ++ tr2)
                    | (.error _, tr2) =>
                        scraperTier env storageOpt (some st) count
                          (tr0 ++ tr1 ++ [.browserLogin] ++ tr2)
              else scraperTier env storageOpt none count (tr0 ++ tr1)


/-- The fixed key set (in literal order) of every candidate record. -/
def candidateKeys : List String :=
  ["source", "photo", "full_name", "title", "area", "experience", "salary",
   "url", "updated_at", "fetched_at", "urn_id"]

theorem apiCandidate_keys (r : Person) :
    (apiCandidate r).map Prod.fst = candidateKeys := rfl

theorem scrapedCandidate_keys (p : ScrapedPerson) :
    (scrapedCandidate p).map Prod.fst = candidateKeys := rfl

/-- Every candidate in a successful `search_linkedin_sync` result has the
fixed key set. -/
theorem syncM_ok_keys (env : SvcEnv) (i : Nat) (jar : List CookieRec)
    (t k : String) (l : Nat) (cands : List Candidate) (tr : List NetCall)
    (h : searchLinkedinSyncM env i jar t k l = (.ok cands, tr)) :
    ∀ c ∈ cands, c.map Prod.fst = candidateKeys := by
  by_cases hkw : pyStrip t = "" ∧ pyStrip k = ""
  · rw [searchLinkedinSyncM, if_pos hkw] at h
    simp only [Prod.mk.injEq, Except.ok.injEq] at h
    rw [← h.1]
    intro c hc
    exact absurd hc (List.not_mem_nil c)
  · cases hsr : env.apiSearchResult i jar with
    | ok rs =>
        rw [searchLinkedinSyncM, if_neg hkw] at h
        simp only [hsr, Prod.mk.injEq, Except.ok.injEq] at h
        rw [← h.1]
        intro c hc
        obtain ⟨r, -, rfl⟩ := List.mem_map.mp hc
        exact apiCandidate_keys r
    | error e =>
        rw [searchLinkedinSyncM, if_neg hkw] at h
        simp only [hsr, Prod.mk.injEq] at h
        exact absurd h.1 (by simp)

/-- Every candidate in a successful scraper-thread result has the fixed key
set. -/
theorem scraperThread_ok_keys (env : SvcEnv) (st : StorageState) (l : Nat)
    (cands : List Candidate) (tr : List NetCall)
    (h : scraperThreadM env st l = (.ok cands, tr)) :
    ∀ c ∈ cands, c.map Prod.fst = candidateKeys := by
  cases hsc : env.scraperResult st with
  | ok ps =>
      simp only [scraperThreadM, hsc, Prod.mk.injEq, Except.ok.injEq] at h
      rw [← h.1]
      intro c hc
      obtain ⟨q, -, rfl⟩ := List.mem_map.mp hc
      exact scrapedCandidate_keys q
  | error e =>
      simp only [scraperThreadM, hsc, Prod.mk.injEq] at h
      exact absurd h.1 (by simp)

/-- Every candidate in a successful scraper-tier result has the fixed key
set. -/
theorem scraperTier_ok_keys (env : SvcEnv) (so ns : Option StorageState)
    (l : Nat) (tr : List NetCall) (cands : List Candidate)
    (p : Option StorageState) (tr' : List NetCall)
    (h : scraperTier env so ns l tr = (.ok (cands, p), tr')) :
    ∀ c ∈ cands, c.map Prod.fst = candidateKeys := by
  cases hst : (match ns with | some st => some st | none => so) with
  | none =>
      simp only [scraperTier, hst, Prod.mk.injEq] at h
      exact absurd h.1 (by simp)
  | some st =>
      rcases hth : scraperThreadM env st l with ⟨r1, trS⟩
      cases r1 with
      | ok cands1 =>
          simp only [scraperTier, hst, hth, Prod.mk.injEq, Except.ok.injEq] at h
          rw [← h.1.1]
          exact scraperThread_ok_keys env st l cands1 trS hth
      | error e =>
          simp only [scraperTier, hst, hth, Prod.mk.injEq] at h
          exact absurd h.1 (by simp)

/-- C9: every candidate record in a successful orchestrator result carries
exactly the fixed key set (source, photo, full_name, title, area, experience,
salary, url, updated_at, fetched_at, urn_id), whether it came from the
structured Voyager path or from the scraper fallback, so the record shape
does not reveal the path. -/
theorem C9_uniform_candidate_shape (env : SvcEnv) (areas : Int → Option String)
    (searchText searchSkills : String) (area : Int) (count : Nat)
    (cands : List Candidate) (persist : Option StorageState) (tr : List NetCall)
    (h : searchLinkedinM env areas searchText searchSkills area count
          = (.ok (cands, persist), tr)) :
    ∀ c ∈ cands, c.map Prod.fst = candidateKeys := by
  rcases hens : ensureCookiesM env with ⟨r0, tr0⟩
  cases r0 with
  | error e =>
      simp only [searchLinkedinM, hens, Prod.mk.injEq] at h
      exact absurd h.1 (by simp)
  | ok trip =>
      obtain ⟨jar, storageOpt, toPersist⟩ := trip
      rcases hs1 : searchLinkedinSyncM env 0 jar (pyStrip searchText)
          (buildKeywords (hhAreaName areas area) searchSkills) count with ⟨r1, tr1⟩
      cases r1 with
      | ok cands1 =>
          simp only [searchLinkedinM, hens, hs1, Prod.mk.injEq, Except.ok.injEq] at h
          rw [← h.1.1]
          exact syncM_ok_keys env 0 jar _ _ count cands1 tr1 hs1
      | error apiErr =>
          cases hdec : env.decryptResult with
          | error u =>
              simp only [searchLinkedinM, hens, hs1, hdec] at h
              exact scraperTier_ok_keys env storageOpt none count _ cands persist tr h
          | ok data =>
              by_cases hup : pyStrip data.username ≠ "" ∧ data.password ≠ ""
              · cases hcc : env.createCookiesResult (countLogins (tr0 ++ tr1)) with
                | error u =>
                    simp only [searchLinkedinM, hens, hs1, hdec, hcc] at h
                    rw [if_pos hup] at h
                    exact scraperTier_ok_keys env storageOpt none count _ cands persist tr h
                | ok st =>
                    rcases hs2 : searchLinkedinSyncM env 1 (cookiesFromStorage st)
                        (pyStrip searchText)
                        (buildKeywords (hhAreaName areas area) searchSkills) count
                        with ⟨r2, tr2⟩
                    cases r2 with
                    | ok cands2 =>
                        simp only [searchLinkedinM, hens, hs1, hdec, hcc, hs2] at h
                        rw [if_pos hup] at h
                        simp only [Prod.mk.injEq, Except.ok.injEq] at h
                        rw [← h.1.1]
                        exact syncM_ok_keys env 1 (cookiesFromStorage st) _ _ count
                          cands2 tr2 hs2
                    | error e2 =>
                        simp only [searchLinkedinM, hens, hs1, hdec, hcc, hs2] at h
                        rw [if_pos hup] at h
                        exact scraperTier_ok_keys env storageOpt (some st) count _
                          cands persist tr h
              · simp only [searchLinkedinM, hens, hs1, hdec] at h
                rw [if_neg hup] at h
                exact scraperTier_ok_keys env storageOpt none count _ cands persist tr h

/-- C4: when the decrypted credential holds neither saved cookies nor a
username/password pair, the orchestrator raises the user-facing
configuration error immediately, with zero network calls made. -/
theorem C4_no_credentials (env : SvcEnv) (areas : Int → Option String)
    (searchText searchSkills : String) (area : Int) (count : Nat)
    (data : CredData)
    (hdec : env.decryptResult = .ok data)
    (hck : data.cookies = none)
    (hcred : data.username = "" ∨ data.password = "") :
    searchLinkedinM env areas searchText searchSkills area count
      = (.error .notConnected, []) := by
  have hres : resolveCookiesFromCredential data = (none, none) := by
    rw [resolveCookiesFromCredential, hck]
  have hens : ensureCookiesM env = (.error .notConnected, []) := by
    rcases hcred with h | h <;>
      simp [ensureCookiesM, hdec, hres, jarFalsy, h]
  simp only [searchLinkedinM, hens]

/-- Helper for concrete non-empty jars. -/
theorem isEmpty_false_of_ne_nil {α : Type} {l : List α} (h : l ≠ []) :
    l.isEmpty = false := by
  cases l with
  | nil => exact absurd rfl h
  | cons a as => rfl

/-- C3: when the structured search with the stored cookies raises
UnauthorizedError and the decrypted credential carries a username/password
pair whose re-login succeeds, the orchestrator retries the structured search
exactly once with the fresh cookies and, on success, returns its results with
the new storage marked for persistence; the network trace is exactly the two
structured searches and the one browser login — the scraper is never
invoked. -/
theorem C3_refresh_retry (env : SvcEnv) (areas : Int → Option String)
    (searchText searchSkills : String) (area : Int) (count : Nat)
    (data : CredData) (jar : List CookieRec) (storage st : StorageState)
    (results : List Person)
    (hdec : env.decryptResult = .ok data)
    (hres : resolveCookiesFromCredential data = (some jar, some storage))
    (hjar : jar ≠ [])
    (hkw : pyStrip (pyStrip searchText) ≠ "")
    (h1 : env.apiSearchResult 0 jar = .error .unauthorized)
    (huser : pyStrip data.username ≠ "") (hpass : data.password ≠ "")
    (hlogin : env.createCookiesResult 0 = .ok st)
    (h2 : env.apiSearchResult 1 (cookiesFromStorage st) = .ok results) :
    searchLinkedinM env areas searchText searchSkills area count
      = (.ok (results.map apiCandidate, some st),
         [.apiSearch jar, .browserLogin, .apiSearch (cookiesFromStorage st)]) := by
  have hje : jar.isEmpty = false := isEmpty_false_of_ne_nil hjar
  have hens : ensureCookiesM env = (.ok (jar, some storage, none), []) := by
    simp [ensureCookiesM, hdec, hres, jarFalsy, hje]
  have hsync1 : searchLinkedinSyncM env 0 jar (pyStrip searchText)
      (buildKeywords (hhAreaName areas area) searchSkills) count
      = (.error .unauthorized, [.apiSearch jar]) := by
    rw [searchLinkedinSyncM, if_neg (by simp [hkw])]
    simp only [h1]
  have hsync2 : searchLinkedinSyncM env 1 (cookiesFromStorage st) (pyStrip searchText)
      (buildKeywords (hhAreaName areas area) searchSkills) count
      = (.ok (results.map apiCandidate), [.apiSearch (cookiesFromStorage st)]) := by
    rw [searchLinkedinSyncM, if_neg (by simp [hkw])]
    simp only [h2]
  have hcl : countLogins ([] ++ [NetCall.apiSearch jar]) = 0 := rfl
  simp only [searchLinkedinM, hens, hsync1, hdec, hcl, hlogin, hsync2]
  rw [if_pos ⟨huser, hpass⟩]
  simp

/-- The credential, fresh storage, API person and environment of the concrete
refresh-retry run. -/
def cCred3 : CredData :=
  ⟨"user@mail.com", "pw",
   some (.storageDict ⟨[⟨"JSESSIONID", "ajax:123", ".linkedin.com", "/"⟩]⟩)⟩

def cSt3 : StorageState := ⟨[⟨"li_at", "fresh-token", ".linkedin.com", "/"⟩]⟩

def cPerson : Person :=
  ⟨some "Jane Roe", some "Python Developer", some "Minsk", some "/in/janeroe",
   some "AbC123"⟩

def cEnv3 : SvcEnv :=
  ⟨.ok cCred3, fun _ => .ok cSt3,
   fun n _ => if n = 0 then .error .unauthorized else .ok [cPerson],
   fun _ => .error ()⟩

/-- Witness for `C3_refresh_retry` on the concrete environment. -/
theorem C3_witness :
    searchLinkedinM cEnv3 (fun _ => none) "python developer" "" 16 10
      = (.ok ([cPerson].map apiCandidate, some cSt3),
         [.apiSearch [⟨"JSESSIONID", "ajax:123", ".linkedin.com", "/"⟩],
          .browserLogin, .apiSearch (cookiesFromStorage cSt3)]) :=
  C3_refresh_retry cEnv3 (fun _ => none) "python developer" "" 16 10 cCred3
    [⟨"JSESSIONID", "ajax:123", ".linkedin.com", "/"⟩]
    ⟨[⟨"JSESSIONID", "ajax:123", ".linkedin.com", "/"⟩]⟩ cSt3 [cPerson]
    rfl rfl (by decide) (by decide) rfl (by decide) (by decide) rfl rfl

/-- The credential-free environment of the terminal-failure run. -/
def cEnv4 : SvcEnv :=
  ⟨.ok ⟨"", "", none⟩, fun _ => .error (),
   fun _ _ => .error (.otherError "unreachable"), fun _ => .error ()⟩

/-- Witness for `C4_no_credentials` on the concrete environment. -/
theorem C4_witness :
    searchLinkedinM cEnv4 (fun _ => none) "python developer" "" 16 10
      = (.error .notConnected, []) :=
  C4_no_credentials cEnv4 (fun _ => none) "python developer" "" 16 10
    ⟨"", "", none⟩ rfl rfl (Or.inl rfl)

/-- Witness for `C9_uniform_candidate_shape`: the concrete refresh-retry run
produces a single candidate whose key list is exactly `candidateKeys`. -/
theorem C9_witness :
    (apiCandidate cPerson).map Prod.fst = candidateKeys :=
  C9_uniform_candidate_shape cEnv3 (fun _ => none) "python developer" "" 16 10
    ([cPerson].map apiCandidate) (some cSt3)
    [.apiSearch [⟨"JSESSIONID", "ajax:123", ".linkedin.com", "/"⟩],
     .browserLogin, .apiSearch (cookiesFromStorage cSt3)]
    (by rfl) (apiCandidate cPerson) (by simp)

end Sourcer
